import Mathlib

/-!
Verification development for the browsers_manager engine
(src/browsers_manager.py). The Python class BrowserManager is shallowly
embedded: the static browser registry, the distro-family classifier
(get_system_info), the package-manager selector (detect_package_manager),
the installed-browser detector (detect_installed_browsers), the install
orchestrator (install_browser, standard path plus the explicit snap and
flatpak backends) and the uninstall orchestrator (uninstall_browser).
Host interaction (subprocess exit codes and captured output, executable
presence, filesystem existence) is abstracted by an environment of pure
functions; all exception handling in the Python helpers converts failures
into boolean or optional results, which the embedding mirrors directly.
-/

namespace BrowsersManager

/-! Python string primitives used by the source, re-implemented over
character lists so that everything reduces in the kernel. -/

/-- A single-quote character, built numerically (used to reproduce the
literal quote characters occurring inside the Python command strings). -/
def sqChar : Char := Char.ofNat 39

/-- The one-character string holding a single quote. -/
def sq : String := String.mk [sqChar]

/-- Whitespace in the sense of Python str.strip / str.split. -/
def isWSChar (c : Char) : Bool :=
  c = ' ' || c = '\t' || c = '\n' || c = '\r' || c = Char.ofNat 11 || c = Char.ofNat 12

/-- ASCII lower-casing of one character (the distro ids consumed by the
classifier are ASCII, so this models Python str.lower on them). -/
def lowerChar (c : Char) : Char :=
  if 'A' ≤ c ∧ c ≤ 'Z' then Char.ofNat (c.toNat + 32) else c

/-- Model of Python str.lower for ASCII strings. -/
def pyLower (s : String) : String := String.mk (s.data.map lowerChar)

/-- Model of Python str.strip: drop whitespace from both ends. -/
def pyStrip (s : String) : String :=
  String.mk (((s.data.dropWhile isWSChar).reverse.dropWhile isWSChar).reverse)

/-- Does the second list start with the first one? -/
def charsStart : List Char → List Char → Bool
  | [], _ => true
  | _ :: _, [] => false
  | a :: as, b :: bs => a = b && charsStart as bs

/-- Does the haystack contain the needle as a contiguous sublist? -/
def charsHave (needle : List Char) : List Char → Bool
  | [] => charsStart needle []
  | hay@(_ :: rest) => charsStart needle hay || charsHave needle rest

/-- Model of the Python substring test `needle in hay` for strings. -/
def strHas (hay needle : String) : Bool := charsHave needle.data hay.data

/-- Helper for pySplitWS: accumulate the current (reversed) word. -/
def splitWSAux : List Char → List Char → List String
  | [], acc => if acc.isEmpty then [] else [String.mk acc.reverse]
  | c :: cs, acc =>
    if isWSChar c then
      if acc.isEmpty then splitWSAux cs []
      else String.mk acc.reverse :: splitWSAux cs []
    else splitWSAux cs (c :: acc)

/-- Model of Python str.split with no argument: split on whitespace runs,
dropping empty pieces. -/
def pySplitWS (s : String) : List String := splitWSAux s.data []

/-- Model of os.path.basename for the absolute paths used by the detector:
the part of the path after the last slash. -/
def basenameOf (p : String) : String :=
  String.mk ((p.data.reverse.takeWhile (fun c => ¬ (c = '/'))).reverse)

/-- Intercalate a separator between the strings of a list (used by the
Python repr model below). -/
def joinSep (sep : String) : List String → String
  | [] => ""
  | [x] => x
  | x :: y :: xs => x ++ sep ++ joinSep sep (y :: xs)

/-- First-match lookup in an association list keyed by strings (the model
of reading a Python dict entry). -/
def alookup {β : Type} (k : String) : List (String × β) → Option β
  | [] => none
  | (k2, v) :: rest => if k = k2 then some v else alookup k rest

/-- Python dict assignment d[k] = v on an insertion-ordered association
list: replace the value at an existing key in place, else append. -/
def dictInsert {β : Type} (k : String) (v : β) : List (String × β) → List (String × β)
  | [] => [(k, v)]
  | (k2, v2) :: rest =>
    if k2 = k then (k, v) :: rest else (k2, v2) :: dictInsert k v rest

/-! The static browser registry (BrowserManager.__init__, self.browsers). -/

/-- One entry of the static browser catalog: display name, the per-family
candidate package-name table (an insertion-ordered dict including the
mandatory default entry), the Snap identifier, the Flatpak application id
and the human description. -/
structure Browser where
  name : String
  package : List (String × List String)
  snap : String
  flatpak : String
  description : String
deriving DecidableEq

def firefoxB : Browser :=
  { name := "Mozilla Firefox"
    package := [("debian", ["firefox-esr", "firefox"]), ("ubuntu", ["firefox"]),
                ("fedora", ["firefox"]), ("arch", ["firefox"]),
                ("opensuse", ["MozillaFirefox"]), ("default", ["firefox", "firefox-esr"])]
    snap := "firefox"
    flatpak := "org.mozilla.firefox"
    description := "Popular open-source web browser from Mozilla" }

def chromiumB : Browser :=
  { name := "Chromium"
    package := [("debian", ["chromium", "chromium-browser"]), ("ubuntu", ["chromium-browser"]),
                ("fedora", ["chromium"]), ("arch", ["chromium"]),
                ("opensuse", ["chromium"]), ("default", ["chromium", "chromium-browser"])]
    snap := "chromium"
    flatpak := "org.chromium.Chromium"
    description := "Open-source browser project that forms the basis for Chrome" }

def chromeB : Browser :=
  { name := "Google Chrome"
    package := [("debian", ["google-chrome-stable"]), ("ubuntu", ["google-chrome-stable"]),
                ("fedora", ["google-chrome-stable"]), ("arch", ["google-chrome"]),
                ("opensuse", ["google-chrome-stable"]),
                ("default", ["google-chrome-stable", "google-chrome"])]
    snap := "google-chrome"
    flatpak := "com.google.Chrome"
    description := "Google" ++ sq ++ "s web browser" }

def torBrowserB : Browser :=
  { name := "Tor Browser"
    package := [("debian", ["torbrowser-launcher"]), ("ubuntu", ["torbrowser-launcher"]),
                ("fedora", ["torbrowser-launcher"]), ("arch", ["tor-browser"]),
                ("opensuse", ["torbrowser-launcher"]),
                ("default", ["torbrowser-launcher", "tor-browser"])]
    snap := "tor-browser"
    flatpak := "com.github.micahflee.torbrowser-launcher"
    description := "Privacy-focused browser for anonymous browsing" }

def braveB : Browser :=
  { name := "Brave Browser"
    package := [("debian", ["brave-browser"]), ("ubuntu", ["brave-browser"]),
                ("fedora", ["brave-browser"]), ("arch", ["brave-bin"]),
                ("opensuse", ["brave-browser"]), ("default", ["brave-browser", "brave-bin"])]
    snap := "brave"
    flatpak := "com.brave.Browser"
    description := "Privacy-focused browser based on Chromium" }

def vivaldiB : Browser :=
  { name := "Vivaldi"
    package := [("debian", ["vivaldi-stable"]), ("ubuntu", ["vivaldi-stable"]),
                ("fedora", ["vivaldi-stable"]), ("arch", ["vivaldi"]),
                ("opensuse", ["vivaldi"]), ("default", ["vivaldi-stable", "vivaldi"])]
    snap := "vivaldi"
    flatpak := "com.vivaldi.Vivaldi"
    description := "Feature-rich browser based on Chromium" }

def operaB : Browser :=
  { name := "Opera"
    package := [("debian", ["opera-stable"]), ("ubuntu", ["opera-stable"]),
                ("fedora", ["opera-stable"]), ("arch", ["opera"]),
                ("opensuse", ["opera"]), ("default", ["opera-stable", "opera"])]
    snap := "opera"
    flatpak := "com.opera.Opera"
    description := "Feature-rich browser with built-in VPN" }

def edgeB : Browser :=
  { name := "Microsoft Edge"
    package := [("debian", ["microsoft-edge-stable"]), ("ubuntu", ["microsoft-edge-stable"]),
                ("fedora", ["microsoft-edge-stable"]), ("arch", ["microsoft-edge-stable-bin"]),
                ("opensuse", ["microsoft-edge"]),
                ("default", ["microsoft-edge-stable", "microsoft-edge"])]
    snap := "microsoft-edge"
    flatpak := "com.microsoft.Edge"
    description := "Microsoft" ++ sq ++ "s Chromium-based browser" }

def falkonB : Browser :=
  { name := "Falkon"
    package := [("debian", ["falkon"]), ("ubuntu", ["falkon"]), ("fedora", ["falkon"]),
                ("arch", ["falkon"]), ("opensuse", ["falkon"]), ("default", ["falkon"])]
    snap := "falkon"
    flatpak := "org.kde.falkon"
    description := "KDE web browser using QtWebEngine" }

def midoriB : Browser :=
  { name := "Midori"
    package := [("debian", ["midori"]), ("ubuntu", ["midori"]), ("fedora", ["midori"]),
                ("arch", ["midori"]), ("opensuse", ["midori"]), ("default", ["midori"])]
    snap := "midori"
    flatpak := "org.midori_browser.Midori"
    description := "Lightweight web browser" }

/-- The insertion-ordered registry self.browsers. -/
def browsersReg : List (String × Browser) :=
  [("firefox", firefoxB), ("chromium", chromiumB), ("chrome", chromeB),
   ("tor-browser", torBrowserB), ("brave", braveB), ("vivaldi", vivaldiB),
   ("opera", operaB), ("edge", edgeB), ("falkon", falkonB), ("midori", midoriB)]

/-- Candidate package names for a browser under a distro family:
browser_info package .get(distro_family, browser_info package default).
Every catalog entry carries a default list, so the empty fallback of
getD is never taken on registry browsers. -/
def pkgNamesFor (b : Browser) (family : String) : List String :=
  match alookup family b.package with
  | some l => l
  | none => (alookup "default" b.package).getD []

/-! The distro-family classifier (tail of BrowserManager.get_system_info):
a case-insensitive table lookup over the raw distribution id. -/

/-- Model of the distro-family classification in get_system_info. -/
def classifyDistro (rawId : String) : String :=
  let i := pyLower rawId
  if i ∈ ["debian", "raspbian"] then "debian"
  else if i ∈ ["ubuntu", "linuxmint", "pop", "elementary"] then "ubuntu"
  else if i ∈ ["fedora", "rhel", "centos", "rocky", "almalinux"] then "fedora"
  else if i ∈ ["arch", "manjaro", "endeavouros"] then "arch"
  else if i ∈ ["opensuse-leap", "opensuse-tumbleweed", "suse"] then "opensuse"
  else "default"

/-- All raw ids appearing in the classifier's lookup table. -/
def tableIds : List String :=
  ["debian", "raspbian", "ubuntu", "linuxmint", "pop", "elementary",
   "fedora", "rhel", "centos", "rocky", "almalinux",
   "arch", "manjaro", "endeavouros",
   "opensuse-leap", "opensuse-tumbleweed", "suse"]

/-! The shell-execution helpers (BrowserManager.command_exists and
BrowserManager.run_command). The host is a pure function from command
lines to exit codes and standard output. -/

/-- Abstraction of the host shell: exit status and stdout of a command
line run through the shell, and the exit status of the argument-list
invocation which NAME used by the presence probe. -/
structure Shell where
  exitCode : String → Nat
  stdout : String → String
  whichCode : String → Nat

/-- Model of command_exists: subprocess.call of which NAME compared with
zero; a missing executable yields a nonzero status, hence false, and
never an exception. -/
def commandExists (sh : Shell) (c : String) : Bool :=
  sh.whichCode c = 0

/-- Model of run_command with capture_output=True: stripped stdout on exit
status zero, and none (Python False) when CalledProcessError is caught. -/
def runCommandCapture (sh : Shell) (cmd : String) : Option String :=
  if sh.exitCode cmd = 0 then some (pyStrip (sh.stdout cmd)) else none

/-- Model of run_command with capture_output=False: True on exit status
zero, False (not an exception) otherwise. -/
def runCommandBool (sh : Shell) (cmd : String) : Bool :=
  sh.exitCode cmd = 0

/-- The engine's view of the host: executable presence, the two
run_command modes, and filesystem existence (os.path.exists). -/
structure Env where
  cmdExists : String → Bool
  runCapture : String → Option String
  runBool : String → Bool
  pathExists : String → Bool

/-- Every Shell induces an Env through the helpers above. -/
def envOfShell (sh : Shell) (pathEx : String → Bool) : Env :=
  { cmdExists := commandExists sh
    runCapture := runCommandCapture sh
    runBool := runCommandBool sh
    pathExists := pathEx }

/-! The package-manager selector (BrowserManager.detect_package_manager). -/

/-- Descriptor of one package manager (one entry of the package_managers
dict or one of the two literal snap/flatpak descriptors, which carry no
update or check_cmd entry). -/
structure PkgManager where
  name : String
  install : String
  remove : String
  update : Option String
  checkCmd : Option String
  pmType : String
deriving DecidableEq

def aptPM : PkgManager :=
  ⟨"apt", "apt install -y", "apt remove -y", some "apt update", some "which apt", "system"⟩

def dnfPM : PkgManager :=
  ⟨"dnf", "dnf install -y", "dnf remove -y", some "dnf check-update", some "which dnf", "system"⟩

def yumPM : PkgManager :=
  ⟨"yum", "yum install -y", "yum remove -y", some "yum check-update", some "which yum", "system"⟩

def pacmanPM : PkgManager :=
  ⟨"pacman", "pacman -S --noconfirm", "pacman -R --noconfirm", some "pacman -Sy",
   some "which pacman", "system"⟩

def zypperPM : PkgManager :=
  ⟨"zypper", "zypper install -y", "zypper remove -y", some "zypper refresh",
   some "which zypper", "system"⟩

def snapPM : PkgManager := ⟨"snap", "snap install", "snap remove", none, none, "snap"⟩

def flatpakPM : PkgManager :=
  ⟨"flatpak", "flatpak install -y", "flatpak uninstall -y", none, none, "flatpak"⟩

/-- The insertion-ordered package_managers dict of detect_package_manager. -/
def systemPMs : List PkgManager := [aptPM, dnfPM, yumPM, pacmanPM, zypperPM]

/-- Model of detect_package_manager: first system manager whose executable
is present, else snap, else flatpak, else the apt descriptor. -/
def detectPackageManager (env : Env) : PkgManager :=
  match systemPMs.find? (fun pm => env.cmdExists pm.name) with
  | some pm => pm
  | none =>
    if env.cmdExists "snap" then snapPM
    else if env.cmdExists "flatpak" then flatpakPM
    else aptPM

/-! The installed-browser detector (BrowserManager.detect_installed_browsers).
It reconciles the registry against four sources in this order: native
package query, the Snap listing, the Flatpak listing, and fixed
filesystem paths. The result is the insertion-ordered installed dict;
the Snap and Flatpak steps assign unconditionally (Python dict
assignment overwrites), while the filesystem step assigns only when the
key is still absent. -/

/-- One entry of the installed dict: the spread browser descriptor plus
the installation_type tag and, when the source records one, the
installed_package value (absent on snap/flatpak records). -/
structure InstalledRecord where
  browser : Browser
  installationType : String
  installedPackage : Option String
deriving DecidableEq

/-- The installed dict built by the detector. -/
abbrev BrowserDict := List (String × InstalledRecord)

/-- Fold one detection step over the registry: for every browser, either
assign a record into the dict (Python d[k] = v) or leave it unchanged. -/
def phaseFold (f : String → Browser → Option InstalledRecord) :
    List (String × Browser) → BrowserDict → BrowserDict
  | [], d => d
  | (bid, b) :: rest, d =>
    phaseFold f rest
      (match f bid b with
       | some r => dictInsert bid r d
       | none => d)

/-- The dpkg-query presence command built for one candidate package name
(the f-string of the apt branch of the detector, with its literal
single quotes and braces). -/
def dpkgStatusCheckCmd (p : String) : String :=
  "dpkg-query -W -f=" ++ sq ++ "$\x7bStatus\x7d" ++ sq ++ " " ++ p ++
    " 2>/dev/null | grep -c " ++ sq ++ "ok installed" ++ sq

/-- The apt-branch presence test: capture the dpkg-query pipe and accept a
truthy result different from the string 0. -/
def aptInstalledCheck (env : Env) (p : String) : Bool :=
  match env.runCapture (dpkgStatusCheckCmd p) with
  | some s => if s = "" then false else if s = "0" then false else true
  | none => false

/-- First candidate package name accepted by a presence test. -/
def findFirstPkg (check : String → Bool) : List String → Option String
  | [] => none
  | p :: ps => if check p then some p else findFirstPkg check ps

/-- The native-manager step of the detector for one browser: the branch on
the selected manager's name, each running its presence query over the
candidate names in order and keeping the first match as
installed_package with provenance system. -/
def systemDecision (env : Env) (pmName family : String) (b : Browser) :
    Option InstalledRecord :=
  if pmName = "apt" then
    (findFirstPkg (fun p => aptInstalledCheck env p) (pkgNamesFor b family)).map
      (fun p => ⟨b, "system", some p⟩)
  else if pmName = "dnf" ∨ pmName = "yum" then
    (findFirstPkg (fun p => env.runBool ("rpm -q " ++ p)) (pkgNamesFor b family)).map
      (fun p => ⟨b, "system", some p⟩)
  else if pmName = "pacman" then
    (findFirstPkg (fun p => env.runBool ("pacman -Q " ++ p ++ " 2>/dev/null"))
        (pkgNamesFor b family)).map (fun p => ⟨b, "system", some p⟩)
  else if pmName = "zypper" then
    (findFirstPkg (fun p => env.runBool ("rpm -q " ++ p)) (pkgNamesFor b family)).map
      (fun p => ⟨b, "system", some p⟩)
  else none

/-- Step 1 of the detector: the native-manager scan over the registry,
starting from the empty dict. -/
def systemPhase (env : Env) (pmName family : String) : BrowserDict :=
  phaseFold (fun _ b => systemDecision env pmName family b) browsersReg []

/-- Whether one browser is discoverable through the Snap listing: snap is
present, the captured listing is truthy, and the Snap identifier occurs
in the listing text (Python substring containment). -/
def snapDiscoverable (env : Env) (b : Browser) : Bool :=
  env.cmdExists "snap" &&
    match env.runCapture "snap list" with
    | some s => if s = "" then false else strHas s b.snap
    | none => false

/-- Step 2 of the detector: when snap is present and the listing is truthy,
assign a snap record (overwriting any earlier one) for every browser
whose Snap identifier occurs in the listing. -/
def snapPhase (env : Env) (d : BrowserDict) : BrowserDict :=
  if env.cmdExists "snap" then
    match env.runCapture "snap list" with
    | some s =>
      if s = "" then d
      else
        phaseFold
          (fun _ b => if strHas s b.snap then some ⟨b, "snap", none⟩ else none)
          browsersReg d
    | none => d
  else d

/-- Whether one browser is discoverable through the Flatpak listing. -/
def flatpakDiscoverable (env : Env) (b : Browser) : Bool :=
  env.cmdExists "flatpak" &&
    match env.runCapture "flatpak list" with
    | some s => if s = "" then false else strHas s b.flatpak
    | none => false

/-- Step 3 of the detector: the Flatpak analogue of the Snap step. -/
def flatpakPhase (env : Env) (d : BrowserDict) : BrowserDict :=
  if env.cmdExists "flatpak" then
    match env.runCapture "flatpak list" with
    | some s =>
      if s = "" then d
      else
        phaseFold
          (fun _ b => if strHas s b.flatpak then some ⟨b, "flatpak", none⟩ else none)
          browsersReg d
    | none => d
  else d

/-- The fixed filesystem probe list of the detector's manual step. -/
def chromePaths : List String :=
  ["/usr/bin/google-chrome", "/usr/bin/chromium", "/usr/bin/chromium-browser",
   "/snap/bin/chromium", "/var/lib/flatpak/app/org.chromium.Chromium"]

/-- One iteration of the chromePaths loop: a path that exists claims the id
chrome when it mentions google-chrome and chromium otherwise (the
browser id choice of the source, with the registry lookup of that
literal id resolved to its catalog entry), but assigns only when that
browser id is still absent from the dict. -/
def chromePathStep (env : Env) (p : String) (d : BrowserDict) : BrowserDict :=
  if env.pathExists p then
    if strHas p "google-chrome" then
      if (alookup "chrome" d).isNone then
        dictInsert "chrome" ⟨chromeB, "manual", some (basenameOf p)⟩ d
      else d
    else
      if (alookup "chromium" d).isNone then
        dictInsert "chromium" ⟨chromiumB, "manual", some (basenameOf p)⟩ d
      else d
  else d

/-- The loop over chromePaths. -/
def chromePathsFold (env : Env) : List String → BrowserDict → BrowserDict
  | [], d => d
  | p :: ps, d => chromePathsFold env ps (chromePathStep env p d)

/-- The manual firefox probe under /opt: assign a manual record only when
firefox is still absent and the vendor binary path exists. -/
def firefoxManualStep (env : Env) (d : BrowserDict) : BrowserDict :=
  if (alookup "firefox" d).isNone && env.pathExists "/opt/firefox/firefox" then
    dictInsert "firefox" ⟨firefoxB, "manual", some "firefox-mozilla"⟩ d
  else d

/-- Step 4 of the detector: the manual firefox probe followed by the
chromePaths loop; both assign only when the key is still absent. -/
def manualPhase (env : Env) (d : BrowserDict) : BrowserDict :=
  chromePathsFold env chromePaths (firefoxManualStep env d)

/-- Model of detect_installed_browsers: the four steps in source order. -/
def detectInstalledBrowsers (env : Env) (pmName family : String) : BrowserDict :=
  manualPhase env (flatpakPhase env (snapPhase env (systemPhase env pmName family)))

/-- Modelled from the spec: the token-match reading of the Snap listing
check in claim C5 — the Snap identifier appears as a whole
whitespace-delimited token of the listing text. The source itself uses
substring containment instead. -/
def specTokenHit (listing ident : String) : Bool :=
  ident ∈ pySplitWS listing

/-! The install orchestrator (BrowserManager.install_browser). The model
covers the standard system path (the final else of the system branch:
every browser except the chrome and brave vendor-bootstrap special
cases) and the explicit snap and flatpak backends (which the source
shares across all browsers). A result is the returned boolean together
with the ordered list of shell command lines passed to run_command.
The except-handlers around these paths are unreachable because
run_command and command_exists convert failures into values. -/

/-- The Flathub remote-add command (run unchecked before each Flatpak
install attempt; registration is skipped by the flag when present). -/
def flathubRemoteAddCmd : String :=
  "flatpak remote-add --if-not-exists flathub https://flathub.org/repo/flathub.flatpakrepo"

/-- The flatpak install command for one browser. -/
def flatpakInstallCmd (b : Browser) : String :=
  "flatpak install flathub " ++ b.flatpak ++ " -y"

/-- The snap install command for one browser. -/
def snapInstallCmd (b : Browser) : String :=
  "sudo snap install " ++ b.snap

/-- The Debian/Ubuntu candidate loop: per candidate run apt-get update and
apt-get install, then accept when the command exists or the dpkg grep
succeeds (short-circuit: the grep runs only when the first test fails). -/
def aptLoop (env : Env) : List String → Bool × List String
  | [] => (false, [])
  | p :: ps =>
    let base := ["sudo apt-get update", "sudo apt-get install " ++ p ++ " -y"]
    if env.cmdExists p then (true, base)
    else
      let chk := "dpkg -l | grep -q " ++ p
      if env.runBool chk then (true, base ++ [chk])
      else
        let r := aptLoop env ps
        (r.1, base ++ [chk] ++ r.2)

/-- First component of a candidate package name before a dash, the
value of Python package_name.split on a dash indexed at zero. -/
def firstDashPart (p : String) : String :=
  String.mk (p.data.takeWhile (fun c => ¬ (c = '-')))

/-- The Fedora/RHEL candidate loop (dnf install, then presence check). -/
def dnfLoop (env : Env) : List String → Bool × List String
  | [] => (false, [])
  | p :: ps =>
    let base := ["sudo dnf install " ++ p ++ " -y"]
    if env.cmdExists (firstDashPart p) then (true, base)
    else
      let chk := "rpm -q " ++ p
      if env.runBool chk then (true, base ++ [chk])
      else
        let r := dnfLoop env ps
        (r.1, base ++ [chk] ++ r.2)

/-- The Arch candidate loop (pacman install, then presence check; the AUR
branch of the source lives in an unreachable except-handler and is
therefore dead code). -/
def pacmanLoop (env : Env) : List String → Bool × List String
  | [] => (false, [])
  | p :: ps =>
    let base := ["sudo pacman -S " ++ p ++ " --noconfirm"]
    if env.cmdExists (firstDashPart p) then (true, base)
    else
      let chk := "pacman -Q " ++ p
      if env.runBool chk then (true, base ++ [chk])
      else
        let r := pacmanLoop env ps
        (r.1, base ++ [chk] ++ r.2)

/-- The openSUSE candidate loop (zypper install, then presence check). -/
def zypperLoop (env : Env) : List String → Bool × List String
  | [] => (false, [])
  | p :: ps =>
    let base := ["sudo zypper install -y " ++ p]
    if env.cmdExists (firstDashPart p) then (true, base)
    else
      let chk := "rpm -q " ++ p
      if env.runBool chk then (true, base ++ [chk])
      else
        let r := zypperLoop env ps
        (r.1, base ++ [chk] ++ r.2)

/-- The native part of the standard system path: the family/manager branch
selecting one candidate loop, or nothing when no branch applies. -/
def nativeInstallLoop (env : Env) (family : String) (pm : PkgManager) (b : Browser) :
    Bool × List String :=
  let names := pkgNamesFor b family
  if family = "debian" ∨ family = "ubuntu" ∨ pm.name = "apt" ∨ pm.name = "apt-get" then
    aptLoop env names
  else if family = "fedora" ∨ pm.name = "dnf" ∨ pm.name = "yum" then
    dnfLoop env names
  else if family = "arch" ∨ pm.name = "pacman" then
    pacmanLoop env names
  else if family = "opensuse" ∨ pm.name = "zypper" then
    zypperLoop env names
  else (false, [])

/-- The standard system path of install_browser: the native candidate loop
followed, when it exhausts all candidates, by the Flatpak attempt (with
the unchecked remote-add first) and only then the Snap attempt. -/
def installSystemStandard (env : Env) (family : String) (pm : PkgManager) (b : Browser) :
    Bool × List String :=
  let r := nativeInstallLoop env family pm b
  if r.1 then r
  else
    if env.cmdExists "flatpak" then
      if env.runBool (flatpakInstallCmd b) then
        (true, r.2 ++ [flathubRemoteAddCmd, flatpakInstallCmd b])
      else
        if env.cmdExists "snap" then
          if env.runBool (snapInstallCmd b) then
            (true, r.2 ++ [flathubRemoteAddCmd, flatpakInstallCmd b, snapInstallCmd b])
          else
            (false, r.2 ++ [flathubRemoteAddCmd, flatpakInstallCmd b, snapInstallCmd b])
        else (false, r.2 ++ [flathubRemoteAddCmd, flatpakInstallCmd b])
    else
      if env.cmdExists "snap" then
        (env.runBool (snapInstallCmd b), r.2 ++ [snapInstallCmd b])
      else (false, r.2)

/-- Model of install_browser for a browser id and requested backend. The
system branch is the standard path above (the chrome and brave
vendor-bootstrap special cases of the source are not modelled); the
snap and flatpak branches are the source's explicit backends, faithful
for every browser: they run their install command through run_command
and return True without consulting its boolean result. -/
def installBrowser (env : Env) (family : String) (pm : PkgManager)
    (bid itype : String) : Bool × List String :=
  match alookup bid browsersReg with
  | none => (false, [])
  | some b =>
    if itype = "system" then installSystemStandard env family pm b
    else if itype = "snap" then
      if env.cmdExists "snap" then (true, [snapInstallCmd b]) else (false, [])
    else if itype = "flatpak" then
      if env.cmdExists "flatpak" then
        (true, [flathubRemoteAddCmd, flatpakInstallCmd b])
      else (false, [])
    else (false, [])

/-! The uninstall orchestrator (BrowserManager.uninstall_browser). -/

/-- Python repr of a plain string (single-quoted). -/
def pyStrRepr (s : String) : String := sq ++ s ++ sq

/-- Python repr of a list of strings. -/
def pyListRepr (l : List String) : String :=
  "[" ++ joinSep ", " (l.map pyStrRepr) ++ "]"

/-- Python repr of the per-family package dict, as the f-string of the
system branch of uninstall_browser interpolates it. -/
def pyDictRepr (d : List (String × List String)) : String :=
  "\x7b" ++ joinSep ", " (d.map (fun kv => pyStrRepr kv.1 ++ ": " ++ pyListRepr kv.2)) ++ "\x7d"

/-- The removal command uninstall_browser builds from a record, by its
installation_type: the system branch interpolates the record's whole
package dict (browser_info package), not the stored installed_package;
unknown types (including manual) build no command. -/
def uninstallCommand (pm : PkgManager) (r : InstalledRecord) : Option String :=
  if r.installationType = "system" then
    some ("sudo " ++ pm.remove ++ " " ++ pyDictRepr r.browser.package)
  else if r.installationType = "snap" then
    some ("sudo snap remove " ++ r.browser.snap)
  else if r.installationType = "flatpak" then
    some ("flatpak uninstall " ++ r.browser.flatpak ++ " -y")
  else none

/-- Outcome of one uninstall invocation: the returned boolean, the shell
command lines the function itself ran, and whether it reassigned the
installed dict by re-running the detector before returning. -/
structure UResult where
  success : Bool
  cmds : List String
  redetected : Bool
deriving DecidableEq

/-- Model of uninstall_browser: an absent id or an unknown
installation_type returns failure with no shell invocation; otherwise
the single removal command runs, and only on its success is the
installed dict recomputed. -/
def uninstallBrowser (env : Env) (pm : PkgManager) (installed : BrowserDict)
    (bid : String) : UResult :=
  match alookup bid installed with
  | none => ⟨false, [], false⟩
  | some r =>
    match uninstallCommand pm r with
    | none => ⟨false, [], false⟩
    | some cmd =>
      if env.runBool cmd then ⟨true, [cmd], true⟩
      else ⟨false, [cmd], false⟩

/-! Concrete hosts used as counterexamples and witnesses. -/

/-- Host where apt and snap are present, the dpkg query finds the debian
candidate firefox-esr installed, and the Snap listing names firefox. -/
def envC1 : Env :=
  { cmdExists := fun c => c == "apt" || c == "snap"
    runCapture := fun c =>
      if c = dpkgStatusCheckCmd "firefox-esr" then some "1"
      else if c = "snap list" then some "firefox 1.0" else none
    runBool := fun _ => false
    pathExists := fun _ => false }

/-- Host where only apt is present and the dpkg query finds firefox-esr
installed. -/
def envC2 : Env :=
  { cmdExists := fun c => c == "apt"
    runCapture := fun c => if c = dpkgStatusCheckCmd "firefox-esr" then some "1" else none
    runBool := fun _ => false
    pathExists := fun _ => false }

/-- Host where native installation fails for every candidate while both
flatpak and snap are present and both alternative installs would
succeed. -/
def envC3 : Env :=
  { cmdExists := fun c => c == "flatpak" || c == "snap"
    runCapture := fun _ => none
    runBool := fun c =>
      c == flatpakInstallCmd firefoxB || c == snapInstallCmd firefoxB
    pathExists := fun _ => false }

/-- Host where only snap is present and its listing text contains opera
solely inside the larger token opera-beta. -/
def envC5 : Env :=
  { cmdExists := fun c => c == "snap"
    runCapture := fun c => if c = "snap list" then some "opera-beta 1.0" else none
    runBool := fun _ => false
    pathExists := fun _ => false }

/-- Host on which every shell command fails. -/
def envAllFail : Env :=
  { cmdExists := fun _ => false
    runCapture := fun _ => none
    runBool := fun _ => false
    pathExists := fun _ => false }

/-- Host on which every executable is present but every run_command
invocation exits with a nonzero status. -/
def envCmdsFail : Env :=
  { cmdExists := fun _ => true
    runCapture := fun _ => none
    runBool := fun _ => false
    pathExists := fun _ => false }

/-- Shell on which every invocation exits with status one. -/
def shellAllFail : Shell :=
  { exitCode := fun _ => 1
    stdout := fun _ => ""
    whichCode := fun _ => 1 }

/-- A snap-provenance opera record as the detector's Snap step builds it. -/
def operaSnapRec : InstalledRecord := ⟨operaB, "snap", none⟩

/-! Lemmas about the dict primitives and the detector's step structure. -/

theorem alookup_dictInsert {β : Type} (k k2 : String) (v : β) (d : List (String × β)) :
    alookup k2 (dictInsert k v d) = if k2 = k then some v else alookup k2 d := by
  induction d with
  | nil => simp [dictInsert, alookup]
  | cons hd tl ih =>
    obtain ⟨k3, v3⟩ := hd
    by_cases h1 : k3 = k <;> by_cases h2 : k2 = k3 <;> by_cases h3 : k2 = k <;>
      simp_all [dictInsert, alookup]

theorem alookup_eq_none_of_not_mem_keys {β : Type} (k : String) :
    ∀ l : List (String × β), k ∉ l.map Prod.fst → alookup k l = none := by
  intro l
  induction l with
  | nil => intro _; rfl
  | cons hd tl ih =>
    obtain ⟨k2, v⟩ := hd
    intro h
    simp only [List.map_cons, List.mem_cons] at h
    push_neg at h
    simp [alookup, h.1, ih h.2]

theorem alookup_phaseFold_miss (f : String → Browser → Option InstalledRecord) :
    ∀ (reg : List (String × Browser)) (d : BrowserDict) (bid : String),
      alookup bid reg = none →
      alookup bid (phaseFold f reg d) = alookup bid d := by
  intro reg
  induction reg with
  | nil => intro d bid _; rfl
  | cons hd tl ih =>
    obtain ⟨k, b⟩ := hd
    intro d bid h
    simp only [alookup] at h
    by_cases hk : bid = k
    · simp [hk] at h
    · rw [if_neg hk] at h
      show alookup bid (phaseFold f tl _) = alookup bid d
      rw [ih _ bid h]
      cases hf : f k b <;> simp [hf, alookup_dictInsert, hk]

theorem alookup_phaseFold (f : String → Browser → Option InstalledRecord) :
    ∀ (reg : List (String × Browser)) (d : BrowserDict) (bid : String) (b : Browser),
      (reg.map Prod.fst).Nodup →
      alookup bid reg = some b →
      alookup bid (phaseFold f reg d) =
        (match f bid b with
         | some r => some r
         | none => alookup bid d) := by
  intro reg
  induction reg with
  | nil => intro d bid b _ h; simp [alookup] at h
  | cons hd tl ih =>
    obtain ⟨k, b2⟩ := hd
    intro d bid b hnd h
    simp only [List.map_cons, List.nodup_cons] at hnd
    simp only [alookup] at h
    by_cases hk : bid = k
    · rw [if_pos hk] at h
      have hb : b2 = b := Option.some.inj h
      subst hb
      subst hk
      have htl : alookup bid tl = none :=
        alookup_eq_none_of_not_mem_keys bid tl hnd.1
      show alookup bid (phaseFold f tl _) = _
      rw [alookup_phaseFold_miss f tl _ bid htl]
      cases hf : f bid b2 <;> simp [hf, alookup_dictInsert]
    · rw [if_neg hk] at h
      show alookup bid (phaseFold f tl _) = _
      rw [ih _ bid b hnd.2 h]
      cases hf2 : f k b2 <;> cases hf : f bid b <;>
        simp [hf, hf2, alookup_dictInsert, hk]

theorem browsersReg_keys_nodup : (browsersReg.map Prod.fst).Nodup := by decide

theorem alookup_systemPhase (env : Env) (pmName family bid : String) (b : Browser)
    (hb : alookup bid browsersReg = some b) :
    alookup bid (systemPhase env pmName family) = systemDecision env pmName family b := by
  unfold systemPhase
  rw [alookup_phaseFold _ browsersReg [] bid b browsersReg_keys_nodup hb]
  cases h : systemDecision env pmName family b <;> simp [alookup]

theorem alookup_snapPhase (env : Env) (d : BrowserDict) (bid : String) (b : Browser)
    (hb : alookup bid browsersReg = some b) :
    alookup bid (snapPhase env d) =
      if snapDiscoverable env b then some ⟨b, "snap", none⟩ else alookup bid d := by
  unfold snapPhase
  cases hc : env.cmdExists "snap"
  · simp [snapDiscoverable, hc]
  · cases hr : env.runCapture "snap list"
    · simp [snapDiscoverable, hc, hr]
    case some s =>
      by_cases hs : s = ""
      · simp [snapDiscoverable, hc, hr, hs]
      · simp only [hs]
        simp
        rw [alookup_phaseFold _ browsersReg d bid b browsersReg_keys_nodup hb]
        cases hhit : strHas s b.snap <;>
          simp [snapDiscoverable, hc, hr, hs, hhit]

theorem alookup_flatpakPhase (env : Env) (d : BrowserDict) (bid : String) (b : Browser)
    (hb : alookup bid browsersReg = some b) :
    alookup bid (flatpakPhase env d) =
      if flatpakDiscoverable env b then some ⟨b, "flatpak", none⟩ else alookup bid d := by
  unfold flatpakPhase
  cases hc : env.cmdExists "flatpak"
  · simp [flatpakDiscoverable, hc]
  · cases hr : env.runCapture "flatpak list"
    · simp [flatpakDiscoverable, hc, hr]
    case some s =>
      by_cases hs : s = ""
      · simp [flatpakDiscoverable, hc, hr, hs]
      · simp only [hs]
        simp
        rw [alookup_phaseFold _ browsersReg d bid b browsersReg_keys_nodup hb]
        cases hhit : strHas s b.flatpak <;>
          simp [flatpakDiscoverable, hc, hr, hs, hhit]

/-- Chaining two write-only-if-absent style steps preserves the shape of
the relation between a dict and its manual-step successor. -/
theorem manualStepChain {d d2 dF : BrowserDict} {bid : String}
    (h1 : alookup bid d2 = alookup bid d ∨
      (alookup bid d = none ∧
        ∃ r, alookup bid d2 = some r ∧ r.installationType = "manual"))
    (h2 : alookup bid dF = alookup bid d2 ∨
      (alookup bid d2 = none ∧
        ∃ r, alookup bid dF = some r ∧ r.installationType = "manual")) :
    alookup bid dF = alookup bid d ∨
      (alookup bid d = none ∧
        ∃ r, alookup bid dF = some r ∧ r.installationType = "manual") := by
  rcases h1 with h1 | ⟨hn1, r1, hr1, ht1⟩
  · rcases h2 with h2 | ⟨hn2, r2, hr2, ht2⟩
    · exact Or.inl (h2.trans h1)
    · exact Or.inr ⟨h1 ▸ hn2, r2, hr2, ht2⟩
  · rcases h2 with h2 | ⟨hn2, r2, hr2, ht2⟩
    · exact Or.inr ⟨hn1, r1, h2.trans hr1, ht1⟩
    · exact Or.inr ⟨hn1, r2, hr2, ht2⟩

theorem alookup_chromePathStep (env : Env) (p : String) (d : BrowserDict) (bid : String) :
    alookup bid (chromePathStep env p d) = alookup bid d ∨
      (alookup bid d = none ∧
        ∃ r, alookup bid (chromePathStep env p d) = some r ∧
          r.installationType = "manual") := by
  unfold chromePathStep
  cases hp : env.pathExists p
  · exact Or.inl (by simp)
  · simp only [if_pos rfl]
    cases hg : strHas p "google-chrome" <;> simp only [Bool.false_eq_true, if_pos rfl, if_neg]
    case false =>
      cases hio : (alookup "chromium" d).isNone
      · exact Or.inl (by simp [hio])
      · simp only [hio, if_pos rfl]
        by_cases hk : bid = "chromium"
        · subst hk
          exact Or.inr ⟨Option.isNone_iff_eq_none.mp hio,
            ⟨chromiumB, "manual", some (basenameOf p)⟩,
            by simp [alookup_dictInsert], rfl⟩
        · exact Or.inl (by simp [alookup_dictInsert, hk])
    case true =>
      cases hio : (alookup "chrome" d).isNone
      · exact Or.inl (by simp [hio])
      · simp only [hio, if_pos rfl]
        by_cases hk : bid = "chrome"
        · subst hk
          exact Or.inr ⟨Option.isNone_iff_eq_none.mp hio,
            ⟨chromeB, "manual", some (basenameOf p)⟩,
            by simp [alookup_dictInsert], rfl⟩
        · exact Or.inl (by simp [alookup_dictInsert, hk])

theorem alookup_chromePathsFold (env : Env) :
    ∀ (ps : List String) (d : BrowserDict) (bid : String),
      alookup bid (chromePathsFold env ps d) = alookup bid d ∨
        (alookup bid d = none ∧
          ∃ r, alookup bid (chromePathsFold env ps d) = some r ∧
            r.installationType = "manual") := by
  intro ps
  induction ps with
  | nil => intro d bid; exact Or.inl rfl
  | cons p ps ih =>
    intro d bid
    exact manualStepChain (alookup_chromePathStep env p d bid)
      (ih (chromePathStep env p d) bid)

theorem alookup_firefoxManualStep (env : Env) (d : BrowserDict) (bid : String) :
    alookup bid (firefoxManualStep env d) = alookup bid d ∨
      (alookup bid d = none ∧
        ∃ r, alookup bid (firefoxManualStep env d) = some r ∧
          r.installationType = "manual") := by
  unfold firefoxManualStep
  cases hc : ((alookup "firefox" d).isNone && env.pathExists "/opt/firefox/firefox")
  · exact Or.inl (by simp)
  · simp only [if_pos rfl]
    by_cases hk : bid = "firefox"
    · subst hk
      have hn : alookup "firefox" d = none :=
        Option.isNone_iff_eq_none.mp ((Bool.and_eq_true _ _).mp hc).1
      exact Or.inr ⟨hn, ⟨firefoxB, "manual", some "firefox-mozilla"⟩,
        by simp [alookup_dictInsert], rfl⟩
    · exact Or.inl (by simp [alookup_dictInsert, hk])

theorem alookup_manualPhase (env : Env) (d : BrowserDict) (bid : String) :
    alookup bid (manualPhase env d) = alookup bid d ∨
      (alookup bid d = none ∧
        ∃ r, alookup bid (manualPhase env d) = some r ∧
          r.installationType = "manual") := by
  unfold manualPhase
  exact manualStepChain (alookup_firefoxManualStep env d bid)
    (alookup_chromePathsFold env chromePaths (firefoxManualStep env d) bid)

theorem alookup_manualPhase_isSome (env : Env) (d : BrowserDict) (bid : String)
    (h : (alookup bid d).isSome) :
    alookup bid (manualPhase env d) = alookup bid d := by
  rcases alookup_manualPhase env d bid with h2 | ⟨hn, _⟩
  · exact h2
  · rw [hn] at h
    simp at h

theorem systemDecision_type (env : Env) (pmName family : String) (b : Browser)
    (r : InstalledRecord) (h : systemDecision env pmName family b = some r) :
    r.installationType = "system" := by
  unfold systemDecision at h
  split at h
  · obtain ⟨p, -, he⟩ := Option.map_eq_some'.mp h
    subst he; rfl
  · split at h
    · obtain ⟨p, -, he⟩ := Option.map_eq_some'.mp h
      subst he; rfl
    · split at h
      · obtain ⟨p, -, he⟩ := Option.map_eq_some'.mp h
        subst he; rfl
      · split at h
        · obtain ⟨p, -, he⟩ := Option.map_eq_some'.mp h
          subst he; rfl
        · simp at h

/-! Claim theorems. -/

/-- Claim C6 (confirmed): distro classification is a pure case-insensitive
table lookup — every raw id of the table maps to its documented family
(including under changed letter case), and every id whose lower-casing
is outside the table maps to default; the function is total, so no
input is an error. -/
theorem C6_classify_table :
    (classifyDistro "debian" = "debian" ∧ classifyDistro "raspbian" = "debian" ∧
     classifyDistro "ubuntu" = "ubuntu" ∧ classifyDistro "linuxmint" = "ubuntu" ∧
     classifyDistro "pop" = "ubuntu" ∧ classifyDistro "elementary" = "ubuntu" ∧
     classifyDistro "fedora" = "fedora" ∧ classifyDistro "rhel" = "fedora" ∧
     classifyDistro "centos" = "fedora" ∧ classifyDistro "rocky" = "fedora" ∧
     classifyDistro "almalinux" = "fedora" ∧ classifyDistro "arch" = "arch" ∧
     classifyDistro "manjaro" = "arch" ∧ classifyDistro "endeavouros" = "arch" ∧
     classifyDistro "opensuse-leap" = "opensuse" ∧
     classifyDistro "opensuse-tumbleweed" = "opensuse" ∧
     classifyDistro "suse" = "opensuse" ∧
     classifyDistro "Ubuntu" = "ubuntu" ∧ classifyDistro "FEDORA" = "fedora") ∧
    (∀ s : String, pyLower s ∉ tableIds → classifyDistro s = "default") := by
  refine ⟨by decide, ?_⟩
  intro s h
  simp only [tableIds, List.mem_cons, List.not_mem_nil, or_false, not_or] at h
  obtain ⟨h1, h2, h3, h4, h5, h6, h7, h8, h9, h10, h11, h12, h13, h14, h15, h16, h17⟩ := h
  simp [classifyDistro, h1, h2, h3, h4, h5, h6, h7, h8, h9, h10, h11, h12, h13,
    h14, h15, h16, h17]

/-- Witness for claim C6: an id outside the table classifies as default. -/
theorem C6_classify_witness :
    pyLower "gentoo" ∉ tableIds ∧ classifyDistro "gentoo" = "default" :=
  ⟨by decide, C6_classify_table.2 "gentoo" (by decide)⟩

/-- Claim C7 (confirmed): package-manager selection returns the descriptor
of the first present executable in the order apt, dnf, yum, pacman,
zypper; otherwise the snap descriptor when snap is present, else the
flatpak descriptor when flatpak is present, else the apt descriptor as
the hardcoded default. -/
theorem C7_detect_package_manager (env : Env) :
    detectPackageManager env =
      if env.cmdExists "apt" then aptPM
      else if env.cmdExists "dnf" then dnfPM
      else if env.cmdExists "yum" then yumPM
      else if env.cmdExists "pacman" then pacmanPM
      else if env.cmdExists "zypper" then zypperPM
      else if env.cmdExists "snap" then snapPM
      else if env.cmdExists "flatpak" then flatpakPM
      else aptPM := by
  unfold detectPackageManager systemPMs
  cases h1 : env.cmdExists "apt" <;> cases h2 : env.cmdExists "dnf" <;>
    cases h3 : env.cmdExists "yum" <;> cases h4 : env.cmdExists "pacman" <;>
    cases h5 : env.cmdExists "zypper" <;>
    simp [List.find?, aptPM, dnfPM, yumPM, pacmanPM, zypperPM, h1, h2, h3, h4, h5]

/-- Claim C8 (confirmed): uninstalling a browser id absent from the
installed-record set returns failure with no shell invocation and no
recomputation. -/
theorem C8_uninstall_absent (env : Env) (pm : PkgManager) (installed : BrowserDict)
    (bid : String) (h : alookup bid installed = none) :
    uninstallBrowser env pm installed bid = ⟨false, [], false⟩ := by
  unfold uninstallBrowser
  rw [h]

/-- Witness for claim C8: uninstalling opera from an empty record set. -/
theorem C8_uninstall_absent_witness :
    alookup "opera" ([] : BrowserDict) = none ∧
    uninstallBrowser envAllFail aptPM [] "opera" = ⟨false, [], false⟩ :=
  ⟨rfl, C8_uninstall_absent envAllFail aptPM [] "opera" rfl⟩

/-- Claim C9 (confirmed): the shell helpers convert failures into values —
a nonzero exit status makes the non-capturing runner return false and
the capturing runner return no output, and a missing executable makes
the presence probe return false; none of these is an exception. -/
theorem C9_helpers_return_values (sh : Shell) (cmd c : String)
    (h1 : sh.exitCode cmd ≠ 0) (h2 : sh.whichCode c ≠ 0) :
    runCommandBool sh cmd = false ∧ runCommandCapture sh cmd = none ∧
    commandExists sh c = false := by
  unfold runCommandBool runCommandCapture commandExists
  simp [h1, h2]

/-- Witness for claim C9: a host on which every invocation exits with
status one. -/
theorem C9_helpers_witness :
    runCommandBool shellAllFail "sudo apt update" = false ∧
    runCommandCapture shellAllFail "sudo apt update" = none ∧
    commandExists shellAllFail "opera" = false :=
  C9_helpers_return_values shellAllFail "sudo apt update" "opera"
    (by decide) (by decide)

/-- Claim C10 (confirmed): with an explicitly requested snap (respectively
flatpak) backend and the corresponding executable present, install
returns true for every environment — in particular regardless of the
boolean result of the underlying install command, which is discarded. -/
theorem C10_explicit_backends_report_success (env : Env) (family : String)
    (pm : PkgManager) (bid : String) (b : Browser)
    (hb : alookup bid browsersReg = some b) :
    (env.cmdExists "snap" = true →
      installBrowser env family pm bid "snap" = (true, [snapInstallCmd b])) ∧
    (env.cmdExists "flatpak" = true →
      installBrowser env family pm bid "flatpak" =
        (true, [flathubRemoteAddCmd, flatpakInstallCmd b])) := by
  unfold installBrowser
  rw [hb]
  constructor <;> intro h <;> simp [h]

/-- Witness for claim C10: a host where both executables are present but
both install commands exit with a nonzero status; install still
reports success on both explicit backends. -/
theorem C10_explicit_backends_witness :
    envCmdsFail.runBool (snapInstallCmd firefoxB) = false ∧
    envCmdsFail.runBool (flatpakInstallCmd firefoxB) = false ∧
    installBrowser envCmdsFail "ubuntu" aptPM "firefox" "snap" =
      (true, [snapInstallCmd firefoxB]) ∧
    installBrowser envCmdsFail "ubuntu" aptPM "firefox" "flatpak" =
      (true, [flathubRemoteAddCmd, flatpakInstallCmd firefoxB]) :=
  ⟨by decide, by decide,
    (C10_explicit_backends_report_success envCmdsFail "ubuntu" aptPM "firefox"
      firefoxB (by decide)).1 (by decide),
    (C10_explicit_backends_report_success envCmdsFail "ubuntu" aptPM "firefox"
      firefoxB (by decide)).2 (by decide)⟩

/-- Claim C4, counterexample: an uninstall of a present browser whose
removal command fails returns without recomputing the installed-record
set (redetected is false), contrary to the claimed
recompute-regardless-of-outcome behaviour. -/
theorem C4_counterexample :
    alookup "opera" [("opera", operaSnapRec)] = some operaSnapRec ∧
    uninstallBrowser envAllFail aptPM [("opera", operaSnapRec)] "opera" =
      ⟨false, ["sudo snap remove opera"], false⟩ := by
  decide

/-- Claim C4 as amended: every uninstall invocation recomputes the
installed-record set exactly when the removal succeeded — the dict is
reassigned from a fresh detector run on the success outcome and left
untouched on every failure outcome. -/
theorem C4_redetect_iff_success (env : Env) (pm : PkgManager)
    (installed : BrowserDict) (bid : String) :
    (uninstallBrowser env pm installed bid).redetected =
      (uninstallBrowser env pm installed bid).success := by
  cases h : alookup bid installed with
  | none => simp [uninstallBrowser, h]
  | some r =>
    cases h2 : uninstallCommand pm r with
    | none => simp [uninstallBrowser, h, h2]
    | some cmd =>
      cases h3 : env.runBool cmd <;> simp [uninstallBrowser, h, h2, h3]

set_option maxRecDepth 20000 in
/-- Claim C2, evaluation of the defect: the record the detector stores for
a firefox found through the apt query carries installed_package
firefox-esr, yet the system-provenance removal command interpolates the
record's whole per-family package table (the Python dict repr), which
differs from the remove command built from the stored package name. -/
theorem C2_uninstall_uses_package_dict :
    alookup "firefox" (detectInstalledBrowsers envC2 "apt" "debian") =
      some ⟨firefoxB, "system", some "firefox-esr"⟩ ∧
    uninstallCommand aptPM ⟨firefoxB, "system", some "firefox-esr"⟩ =
      some ("sudo apt remove -y " ++ pyDictRepr firefoxB.package) ∧
    ("sudo apt remove -y " ++ pyDictRepr firefoxB.package) ≠
      "sudo apt remove -y firefox-esr" := by
  decide

set_option maxRecDepth 20000 in
/-- Claim C1, counterexample: on a host where firefox is discoverable both
through the apt presence query (the debian candidate firefox-esr is
installed) and through the Snap listing, the detector returns the
record with provenance snap, not system — the Snap step overwrites the
earlier system record. -/
theorem C1_counterexample :
    (alookup "firefox" (detectInstalledBrowsers envC1 "apt" "debian")).map
        (fun r => r.installationType) = some "snap" ∧
    systemDecision envC1 "apt" "debian" firefoxB =
      some ⟨firefoxB, "system", some "firefox-esr"⟩ ∧
    snapDiscoverable envC1 firefoxB = true := by
  decide

/-- Claim C1 as amended: when a browser is discoverable both through the
native package query and through the Snap listing, the returned record
carries provenance snap (or flatpak when the Flatpak listing also names
it): later detection steps overwrite earlier ones, so the effective
precedence is flatpak over snap over system, with manual never
overwriting. -/
theorem C1_later_steps_overwrite (env : Env) (pmName family bid : String) (b : Browser)
    (hb : alookup bid browsersReg = some b)
    (hsys : systemDecision env pmName family b ≠ none)
    (hsnap : snapDiscoverable env b = true) :
    (alookup bid (detectInstalledBrowsers env pmName family)).map
        (fun r => r.installationType) =
      some (if flatpakDiscoverable env b then "flatpak" else "snap") := by
  unfold detectInstalledBrowsers
  have h2 : alookup bid (snapPhase env (systemPhase env pmName family)) =
      some ⟨b, "snap", none⟩ := by
    rw [alookup_snapPhase env (systemPhase env pmName family) bid b hb, if_pos hsnap]
  have h3 : alookup bid
      (flatpakPhase env (snapPhase env (systemPhase env pmName family))) =
      if flatpakDiscoverable env b then some ⟨b, "flatpak", none⟩
      else some ⟨b, "snap", none⟩ := by
    rw [alookup_flatpakPhase env (snapPhase env (systemPhase env pmName family)) bid b hb,
      h2]
  have h4 : (alookup bid
      (flatpakPhase env (snapPhase env (systemPhase env pmName family)))).isSome := by
    rw [h3]
    cases hf : flatpakDiscoverable env b <;> simp [hf]
  rw [alookup_manualPhase_isSome env
    (flatpakPhase env (snapPhase env (systemPhase env pmName family))) bid h4, h3]
  cases hf : flatpakDiscoverable env b <;> simp [hf]

set_option maxRecDepth 20000 in
/-- Witness for the amended claim C1, instantiated on the counterexample
host. -/
theorem C1_later_steps_overwrite_witness :
    (alookup "firefox" (detectInstalledBrowsers envC1 "apt" "debian")).map
        (fun r => r.installationType) =
      some (if flatpakDiscoverable envC1 firefoxB then "flatpak" else "snap") :=
  C1_later_steps_overwrite envC1 "apt" "debian" "firefox" firefoxB
    (by decide) (by decide) (by decide)

set_option maxRecDepth 20000 in
/-- Claim C5, counterexample: a Snap listing that contains opera only
inside the larger token opera-beta still makes the detector record
opera with provenance snap, because the source tests substring
containment, not whole-token containment. -/
theorem C5_counterexample :
    (alookup "opera" (detectInstalledBrowsers envC5 "apt" "debian")).map
        (fun r => r.installationType) = some "snap" ∧
    envC5.runCapture "snap list" = some "opera-beta 1.0" ∧
    specTokenHit "opera-beta 1.0" "opera" = false := by
  decide

/-- Claim C5 as amended: a browser's returned record carries provenance
snap exactly when snap is available, the captured listing is nonempty
and contains the browser's Snap identifier as a substring, and the
browser is not also discoverable through the Flatpak listing (whose
later step would overwrite the snap record). -/
theorem C5_snap_iff_substring (env : Env) (pmName family bid : String) (b : Browser)
    (hb : alookup bid browsersReg = some b) :
    ((alookup bid (detectInstalledBrowsers env pmName family)).map
        (fun r => r.installationType) = some "snap") ↔
      (snapDiscoverable env b = true ∧ flatpakDiscoverable env b = false) := by
  unfold detectInstalledBrowsers
  have hsysL := alookup_systemPhase env pmName family bid b hb
  have hsnapL := alookup_snapPhase env (systemPhase env pmName family) bid b hb
  have hflatL := alookup_flatpakPhase env
    (snapPhase env (systemPhase env pmName family)) bid b hb
  cases hf : flatpakDiscoverable env b with
  | true =>
    rw [hf] at hflatL
    simp at hflatL
    have hfin := alookup_manualPhase_isSome env
      (flatpakPhase env (snapPhase env (systemPhase env pmName family))) bid
      (by rw [hflatL]; rfl)
    rw [hfin, hflatL]
    constructor
    · intro h
      simp only [Option.map_some'] at h
      exact absurd (Option.some.inj h) (by decide)
    · rintro ⟨-, h2⟩
      simp [hf] at h2
  | false =>
    rw [hf] at hflatL
    simp at hflatL
    cases hs : snapDiscoverable env b with
    | true =>
      rw [hs] at hsnapL
      simp at hsnapL
      have hEq : alookup bid
          (flatpakPhase env (snapPhase env (systemPhase env pmName family))) =
          some ⟨b, "snap", none⟩ := by
        rw [hflatL, hsnapL]
      have hfin := alookup_manualPhase_isSome env
        (flatpakPhase env (snapPhase env (systemPhase env pmName family))) bid
        (by rw [hEq]; rfl)
      rw [hfin, hEq]
      exact ⟨fun _ => ⟨rfl, rfl⟩, fun _ => rfl⟩
    | false =>
      rw [hs] at hsnapL
      simp at hsnapL
      have hEq : alookup bid
          (flatpakPhase env (snapPhase env (systemPhase env pmName family))) =
          systemDecision env pmName family b := by
        rw [hflatL, hsnapL, hsysL]
      constructor
      · intro h
        exfalso
        rcases alookup_manualPhase env
          (flatpakPhase env (snapPhase env (systemPhase env pmName family))) bid with
          hm | ⟨hn, r, hr, ht⟩
        · rw [hm, hEq] at h
          cases hq : systemDecision env pmName family b with
          | none => rw [hq] at h; simp at h
          | some r2 =>
            rw [hq] at h
            simp at h
            have ht2 := systemDecision_type env pmName family b r2 hq
            rw [ht2] at h
            exact absurd h (by decide)
        · rw [hr] at h
          simp at h
          rw [ht] at h
          exact absurd h (by decide)
      · rintro ⟨h1, -⟩
        simp [hs] at h1

set_option maxRecDepth 20000 in
/-- Witness for the amended claim C5, instantiated on the counterexample
host and the opera catalog entry. -/
theorem C5_snap_iff_substring_witness :
    ((alookup "opera" (detectInstalledBrowsers envC5 "apt" "debian")).map
        (fun r => r.installationType) = some "snap") ↔
      (snapDiscoverable envC5 operaB = true ∧
        flatpakDiscoverable envC5 operaB = false) :=
  C5_snap_iff_substring envC5 "apt" "debian" "opera" operaB (by decide)

/-- Claim C3, counterexample: with the system backend requested for
firefox on ubuntu, native installation exhausting its one candidate,
and both snap and flatpak present with both alternative installs able
to succeed, the orchestrator attempts Flatpak (after the remote-add)
and returns success without ever running the snap install, contrary to
the claimed Snap-first order. -/
theorem C3_counterexample :
    installBrowser envC3 "ubuntu" aptPM "firefox" "system" =
      (true, ["sudo apt-get update", "sudo apt-get install firefox -y",
              "dpkg -l | grep -q firefox", flathubRemoteAddCmd,
              flatpakInstallCmd firefoxB]) ∧
    envC3.cmdExists "snap" = true ∧
    envC3.runBool (snapInstallCmd firefoxB) = true ∧
    snapInstallCmd firefoxB ∉ (installBrowser envC3 "ubuntu" aptPM "firefox" "system").2 := by
  decide

/-- Claim C3 as amended: on the standard system path, when the native
candidate loop exhausts all candidates without success, the
orchestrator retries via Flatpak first when present (running the
Flathub remote-add, guarded by its if-not-exists flag, immediately
before the Flatpak install), and retries via Snap only when the
Flatpak attempt failed or Flatpak is absent; with neither present the
invocation fails with no further command. -/
theorem C3_fallback_flatpak_then_snap (env : Env) (family : String) (pm : PkgManager)
    (b : Browser) (h : (nativeInstallLoop env family pm b).1 = false) :
    (env.cmdExists "flatpak" = true → env.runBool (flatpakInstallCmd b) = true →
      installSystemStandard env family pm b =
        (true, (nativeInstallLoop env family pm b).2 ++
          [flathubRemoteAddCmd, flatpakInstallCmd b])) ∧
    (env.cmdExists "flatpak" = true → env.runBool (flatpakInstallCmd b) = false →
      env.cmdExists "snap" = true →
      installSystemStandard env family pm b =
        (env.runBool (snapInstallCmd b), (nativeInstallLoop env family pm b).2 ++
          [flathubRemoteAddCmd, flatpakInstallCmd b, snapInstallCmd b])) ∧
    (env.cmdExists "flatpak" = true → env.runBool (flatpakInstallCmd b) = false →
      env.cmdExists "snap" = false →
      installSystemStandard env family pm b =
        (false, (nativeInstallLoop env family pm b).2 ++
          [flathubRemoteAddCmd, flatpakInstallCmd b])) ∧
    (env.cmdExists "flatpak" = false → env.cmdExists "snap" = true →
      installSystemStandard env family pm b =
        (env.runBool (snapInstallCmd b), (nativeInstallLoop env family pm b).2 ++
          [snapInstallCmd b])) ∧
    (env.cmdExists "flatpak" = false → env.cmdExists "snap" = false →
      installSystemStandard env family pm b =
        (false, (nativeInstallLoop env family pm b).2)) := by
  refine ⟨?_, ?_, ?_, ?_, ?_⟩
  · intro h1 h2
    simp [installSystemStandard, h, h1, h2]
  · intro h1 h2 h3
    cases h4 : env.runBool (snapInstallCmd b) <;>
      simp [installSystemStandard, h, h1, h2, h3, h4]
  · intro h1 h2 h3
    simp [installSystemStandard, h, h1, h2, h3]
  · intro h1 h2
    cases h4 : env.runBool (snapInstallCmd b) <;>
      simp [installSystemStandard, h, h1, h2, h4]
  · intro h1 h2
    simp [installSystemStandard, h, h1, h2]

/-- Witness for the amended claim C3, instantiated on the counterexample
host: native installation failed and the Flatpak retry concluded the
invocation. -/
theorem C3_fallback_witness :
    (nativeInstallLoop envC3 "ubuntu" aptPM firefoxB).1 = false ∧
    installSystemStandard envC3 "ubuntu" aptPM firefoxB =
      (true, (nativeInstallLoop envC3 "ubuntu" aptPM firefoxB).2 ++
        [flathubRemoteAddCmd, flatpakInstallCmd firefoxB]) :=
  ⟨by decide,
    (C3_fallback_flatpak_then_snap envC3 "ubuntu" aptPM firefoxB (by decide)).1
      (by decide) (by decide)⟩

end BrowsersManager
